/-
  Verification of the sprite-indexing and game-loop logic of the
  PixelGameDev repository (src/public/js/builder.js, src/public/js/build.js).

  Modelling conventions:
  * JavaScript numbers are modelled as exact rationals (ℚ); every arithmetic
    operation appearing in the sources (integer addition, halves, division of
    small pixel counts) is exact in binary floating point, so the embedding
    is faithful on the inputs considered.
  * The ambient browser global `canvas` (the render surface, 640×480 in
    src/views/game-dev-hub.ejs) is passed explicitly as a width parameter.
  * Calling a method that no class in the source defines throws a TypeError
    in JavaScript; such calls are embedded as a `JsError` value returned next
    to the state that was already mutated before the throw.
  * `emit` on DevGameMaker iterates `this.eventListeners[event]`; no call to
    `on` exists anywhere in the sources, so every listener list is empty and
    `emit` never changes state.  It is therefore embedded as a no-op.
-/
import Mathlib

namespace PixelGameDev

/-! ## SpriteManager (src/public/js/builder.js)

`_createItems(imagePath, spriteWidth, spriteHeight)` installs an `onload`
callback which, once the image of dimensions `width × height` has loaded,
runs

    const totalItems = (img.width / spriteWidth) * (img.height / spriteHeight);
    for (let i = 0; i < totalItems; i++) {
      const x = (i % (img.width / spriteWidth)) * spriteWidth;
      const y = Math.floor(i / (img.width / spriteWidth)) * spriteHeight;
      items.push({ index: i, x: x, y: y });
    }

Note the divisions are plain JS divisions (no `Math.floor`), so `totalItems`
and `img.width / spriteWidth` are in general non-integral rationals.  The
loop `for (let i = 0; i < T; i++)` with `T ≥ 0` executes `⌈T⌉` times.  The
JS remainder `a % b` for `a ≥ 0, b > 0` equals `a - b * ⌊a / b⌋`.
We model the state of `items` after the load callback has fired. -/

/-- One element of a sheet's `items` array: `{ index: i, x: x, y: y }`. -/
structure SheetItem where
  index : ℕ
  x : ℚ
  y : ℚ
  deriving DecidableEq, Repr

/-- JS remainder `a % b` for the nonnegative operands arising here
(`a ≥ 0`, `b > 0`), where truncation and floor agree. -/
def jsMod (a b : ℚ) : ℚ := a - b * (⌊a / b⌋ : ℚ)

/-- `totalItems = (img.width / spriteWidth) * (img.height / spriteHeight)`,
with exact (JS) division. -/
def totalItemsQ (W H tw th : ℕ) : ℚ := ((W : ℚ) / tw) * ((H : ℚ) / th)

/-- The `items` array produced by `SpriteManager._createItems` once the
backing image of size `W × H` has loaded with tile size `tw × th`. -/
def createItems (W H tw th : ℕ) : List SheetItem :=
  (List.range ⌈totalItemsQ W H tw th⌉₊).map (fun i =>
    { index := i
      x := jsMod (i : ℚ) ((W : ℚ) / tw) * tw
      y := (⌊(i : ℚ) / ((W : ℚ) / tw)⌋ : ℚ) * th })

/-- The per-type record stored by `addSprite`:
`{ imagePath, spriteWidth, spriteHeight, items }`. -/
structure SpriteInfo where
  imagePath : String
  spriteWidth : ℕ
  spriteHeight : ℕ
  items : List SheetItem
  deriving DecidableEq, Repr

/-- The manager's `sprites` object: a string-keyed map, modelled as an
association list where the head shadows older entries (so re-registration
overwrites). -/
abbrev SpriteStore := List (String × SpriteInfo)

/-- `addSprite(type, imagePath, spriteWidth, spriteHeight)` for an image
whose loaded dimensions are `W × H`: stores the record under `type`,
its `items` as produced by `_createItems` after the load completes. -/
def addSprite (store : SpriteStore) (type imagePath : String)
    (tw th W H : ℕ) : SpriteStore :=
  (type, { imagePath := imagePath, spriteWidth := tw, spriteHeight := th
           items := createItems W H tw th }) :: store

/-- The result object built by `getSprite`:
`{ imagePath, position, color }`. -/
structure SpriteResult where
  imagePath : String
  position : SheetItem
  color : String
  deriving DecidableEq, Repr

/-- `SpriteManager.getSprite({type, item, color})`.  Looks `type` up in
`this.sprites`; if absent, logs and returns `null`.  Otherwise checks
`item < items.length` and either returns the sprite object or logs and
returns `null`.  An omitted `color` defaults to `"default"`. -/
def getSprite (store : SpriteStore) (type : String) (item : ℕ)
    (color : Option String) : Option SpriteResult :=
  match store.lookup type with
  | some spriteInfo =>
      if h : item < spriteInfo.items.length then
        some { imagePath := spriteInfo.imagePath
               position := spriteInfo.items.get ⟨item, h⟩
               color := color.getD "default" }
      else
        none
  | none => none

/-! ## Entity hierarchy (src/public/js/build.js)

`class Entity` fields, set by its constructor:
`pos = [pos.x, pos.y]`, `vel = [0, 0]`, `sprite`,
`hitbox = [pos.x, pos.y, 16, 16]`, `dying = false`.

No code in the source ever assigns an `isDestroyed` property, yet
`DevGameMaker.cleanup` reads it; reading an absent JS property yields
`undefined`, which is falsy.  We model it as a Bool that starts `false`
and that no modelled operation ever sets. -/

/-- The hitbox array `[x, y, w, h]`. -/
structure Box where
  x : ℚ
  y : ℚ
  w : ℚ
  h : ℚ
  deriving DecidableEq, Repr

/-- Thrown JavaScript errors observable from the modelled code. -/
inductive JsError where
  | typeError (msg : String)
  deriving DecidableEq, Repr

/-- An `Entity` (base class of Player, Enemy, PowerUp). -/
structure Entity where
  pos : ℚ × ℚ
  vel : ℚ × ℚ
  sprite : String
  hitbox : Box
  dying : Bool
  isDestroyed : Bool
  deriving DecidableEq, Repr

/-- The `Entity` constructor: position from the argument, zero velocity,
hitbox `[pos.x, pos.y, 16, 16]`, not dying; `isDestroyed` is the falsy
`undefined` of a never-assigned property. -/
def Entity.init (pos : ℚ × ℚ) (sprite : String) : Entity :=
  { pos := pos
    vel := (0, 0)
    sprite := sprite
    hitbox := { x := pos.1, y := pos.2, w := 16, h := 16 }
    dying := false
    isDestroyed := false }

/-- `Entity.checkBounds` clamping of `pos[0]`:
`if (pos[0] < 0) pos[0] = 0; else if (pos[0] > canvas.width - hitbox[2])
pos[0] = canvas.width - hitbox[2];`.  `canvasW` is the ambient
`canvas.width`. -/
def checkBoundsX (canvasW hitboxW x : ℚ) : ℚ :=
  if x < 0 then 0
  else if x > canvasW - hitboxW then canvasW - hitboxW
  else x

/-- `Entity.update`: `pos[0] += vel[0]; pos[1] += vel[1]; this.checkBounds()`. -/
def Entity.update (canvasW : ℚ) (e : Entity) : Entity :=
  { e with pos := (checkBoundsX canvasW e.hitbox.w (e.pos.1 + e.vel.1),
                   e.pos.2 + e.vel.2) }

/-- `Entity.isCollideWith(entity)`:
`!(x1 > x2 + w2 || x1 + w1 < x2 || y1 > y2 + h2 || y1 + h1 < y2)`. -/
def Entity.isCollideWith (a b : Entity) : Bool :=
  !(decide (a.hitbox.x > b.hitbox.x + b.hitbox.w) ||
    decide (a.hitbox.x + a.hitbox.w < b.hitbox.x) ||
    decide (a.hitbox.y > b.hitbox.y + b.hitbox.h) ||
    decide (a.hitbox.y + a.hitbox.h < b.hitbox.y))

/-- `Entity.destroy`: first `this.dying = true`, then `this.emit('destroyed')`.
`Entity` (unlike `DevGameMaker`) defines no `emit` method and inherits none,
so the second statement throws a TypeError — after `dying` was already set,
and without any notification being delivered. -/
def Entity.destroy (e : Entity) : Entity × Option JsError :=
  ({ e with dying := true },
   some (JsError.typeError "this.emit is not a function"))

/-- A `Player`: Entity state plus `health = 100` and `invincibility = false`
from the Player constructor. -/
structure PlayerState where
  ent : Entity
  health : ℚ
  invincibility : Bool
  deriving DecidableEq, Repr

/-- The `Player` constructor. -/
def PlayerState.init (pos : ℚ × ℚ) : PlayerState :=
  { ent := Entity.init pos "path/to/player/sprite"
    health := 100
    invincibility := false }

/-- `Player.moveLeft`: `this.vel[0] = -5`. -/
def PlayerState.moveLeft (p : PlayerState) : PlayerState :=
  { p with ent := { p.ent with vel := (-5, p.ent.vel.2) } }

/-- `Player.moveRight`: `this.vel[0] = 5`. -/
def PlayerState.moveRight (p : PlayerState) : PlayerState :=
  { p with ent := { p.ent with vel := (5, p.ent.vel.2) } }

/-- `Player.jump`: `this.vel[1] = -10`. -/
def PlayerState.jump (p : PlayerState) : PlayerState :=
  { p with ent := { p.ent with vel := (p.ent.vel.1, -10) } }

/-- `Player.update`: `super.update()`, then `vel[1] += 0.5` (gravity), then
`if (vel[0] !== 0) vel[0] = 0`. -/
def PlayerState.update (canvasW : ℚ) (p : PlayerState) : PlayerState :=
  let e := p.ent.update canvasW
  let e := { e with vel := (e.vel.1, e.vel.2 + 1/2) }
  let e := if e.vel.1 ≠ 0 then { e with vel := (0, e.vel.2) } else e
  { p with ent := e }

/-- A `PowerUp`: Entity state plus its `type` string. -/
structure PowerUpState where
  ent : Entity
  type : String
  deriving DecidableEq, Repr

/-- `PowerUp.activate(player)`: for `'invincibility'` sets
`player.invincibility = true` (the 5000 ms `setTimeout` that later clears it
is a host-scheduled callback outside the synchronous tick and is not part of
this step); for `'speed'` and unknown types it only logs. -/
def PowerUpState.activate (p : PowerUpState) (pl : PlayerState) : PlayerState :=
  if p.type = "invincibility" then { pl with invincibility := true } else pl

/-! ## DevGameMaker (src/public/js/build.js) -/

/-- The DevGameMaker state (its constructor fields).  `maps` and
`eventListeners` are omitted: no modelled operation reads `maps`, and the
listener lists stay empty because the source never calls `on`. -/
structure GameState where
  player : PlayerState
  enemies : List Entity
  powerUps : List PowerUpState
  currentMap : Option Unit
  playerLives : ℤ
  isPaused : Bool
  score : ℤ
  deriving DecidableEq, Repr

/-- The `DevGameMaker` constructor state: player at `(50, 100)`, no
enemies/power-ups, no current map, 3 lives, not paused, score 0. -/
def GameState.init : GameState :=
  { player := PlayerState.init (50, 100)
    enemies := []
    powerUps := []
    currentMap := none
    playerLives := 3
    isPaused := false
    score := 0 }

/-- `DevGameMaker.togglePause`: flips `isPaused` and emits `'pauseToggled'`
(a no-op: no listeners exist). -/
def togglePause (s : GameState) : GameState :=
  { s with isPaused := !s.isPaused }

/-- `DevGameMaker.restartGame`: sets `playerLives = 3` and `score = 0`, then
calls `this.player.setPosition(50, 100)` — a method neither `Player` nor
`Entity` defines, so a TypeError is thrown there; the enemy/power-up resets,
`currentMap.reset()`, the unpause and the `'gameRestarted'` emit are never
reached. -/
def restartGame (s : GameState) : GameState × Option JsError :=
  ({ s with playerLives := 3, score := 0 },
   some (JsError.typeError "this.player.setPosition is not a function"))

/-- `DevGameMaker.checkPlayerCollisionWithEnemy(enemy)`: under
`player.isCollideWith(enemy) && !enemy.dying && !player.invincibility` it
emits `'playerHit'` (no listeners, no effect) and then calls
`this.player.takeDamage(enemy.damage)` — a method neither `Player` nor
`Entity` defines, so a TypeError is thrown there; the statements
`this.playerLives -= 1` and the game-over/restart check are never reached. -/
def checkPlayerCollisionWithEnemy (s : GameState) (enemy : Entity) :
    GameState × Option JsError :=
  if s.player.ent.isCollideWith enemy && !enemy.dying && !s.player.invincibility
  then (s, some (JsError.typeError "this.player.takeDamage is not a function"))
  else (s, none)

/-- `DevGameMaker.checkPlayerCollisionWithPowerUp(powerUp)` applied to the
power-up at index `i` of `this.powerUps`: on collision it emits
`'playerPowerUp'` (no effect), runs `powerUp.activate(this.player)`, then
`powerUp.destroy()` — which sets the power-up's `dying` and then throws
inside `Entity.destroy` (no `emit` on `Entity`). -/
def checkPlayerCollisionWithPowerUp (s : GameState) (i : ℕ) :
    GameState × Option JsError :=
  match s.powerUps[i]? with
  | none => (s, none)
  | some p =>
      if s.player.ent.isCollideWith p.ent then
        let pl := p.activate s.player
        let pups := s.powerUps.set i { p with ent := { p.ent with dying := true } }
        ({ s with player := pl, powerUps := pups },
         some (JsError.typeError "this.emit is not a function"))
      else (s, none)

/-- `this.enemies.forEach(enemy => this.checkPlayerCollisionWithEnemy(enemy))`:
an exception thrown by the callback aborts the iteration and propagates. -/
def forEachEnemy : GameState → List Entity → GameState × Option JsError
  | s, [] => (s, none)
  | s, e :: rest =>
      match checkPlayerCollisionWithEnemy s e with
      | (s1, some err) => (s1, some err)
      | (s1, none) => forEachEnemy s1 rest

/-- `this.powerUps.forEach(...)` over the indices of the array; an exception
aborts the iteration and propagates. -/
def forEachPowerUp : GameState → List ℕ → GameState × Option JsError
  | s, [] => (s, none)
  | s, i :: rest =>
      match checkPlayerCollisionWithPowerUp s i with
      | (s1, some err) => (s1, some err)
      | (s1, none) => forEachPowerUp s1 rest

/-- `DevGameMaker.handleCollisions`: enemies first, then power-ups. -/
def handleCollisions (s : GameState) : GameState × Option JsError :=
  match forEachEnemy s s.enemies with
  | (s1, some err) => (s1, some err)
  | (s1, none) => forEachPowerUp s1 (List.range s1.powerUps.length)

/-- `DevGameMaker.updateEntities`: updates every enemy, every power-up
(both via the inherited `Entity.update`) and the player. -/
def updateEntities (canvasW : ℚ) (s : GameState) : GameState :=
  { s with enemies := s.enemies.map (Entity.update canvasW)
           powerUps := s.powerUps.map
             (fun p => { p with ent := p.ent.update canvasW })
           player := s.player.update canvasW }

/-- `DevGameMaker.cleanup`:
`this.enemies = this.enemies.filter(enemy => !enemy.isDestroyed);`
`this.powerUps = this.powerUps.filter(powerUp => !powerUp.isDestroyed);`. -/
def cleanup (s : GameState) : GameState :=
  { s with enemies := s.enemies.filter (fun enemy => !enemy.isDestroyed)
           powerUps := s.powerUps.filter (fun powerUp => !powerUp.ent.isDestroyed) }

/-- `DevGameMaker.handleKeyPress(event)`, keyed by `event.code`.  The first
statement is `if (this.isPaused) return;` — every key, the pause toggle
included, is ignored while paused.  `KeyF` (fire) only logs.  `KeyR` runs
`restartGame`, which throws (see `restartGame`). -/
def handleKeyPress (s : GameState) (code : String) : GameState × Option JsError :=
  if s.isPaused then (s, none)
  else if code = "ArrowLeft" then ({ s with player := s.player.moveLeft }, none)
  else if code = "ArrowRight" then ({ s with player := s.player.moveRight }, none)
  else if code = "Space" then ({ s with player := s.player.jump }, none)
  else if code = "KeyF" then (s, none)
  else if code = "Escape" then (togglePause s, none)
  else if code = "KeyR" then restartGame s
  else (s, none)

/-- One invocation of `DevGameMaker.gameLoop`.  Returns the resulting state,
the error aborting the tick (if any), and whether `requestAnimationFrame`
was reached (i.e. whether a next tick was scheduled).  While paused the loop
returns at once and schedules nothing.  Otherwise it updates entities and
handles collisions; if those do not throw, `renderEntities` runs, whose
first step `clearCanvas` calls `this.getRenderingContext()` — a method
`DevGameMaker` does not define — so the tick throws there and never reaches
`cleanup` or `requestAnimationFrame`. -/
def gameLoopTick (canvasW : ℚ) (s : GameState) :
    GameState × Option JsError × Bool :=
  if s.isPaused then (s, none, false)
  else
    let s1 := updateEntities canvasW s
    match handleCollisions s1 with
    | (s2, some err) => (s2, some err, false)
    | (s2, none) =>
        (s2, some (JsError.typeError
          "this.getRenderingContext is not a function"), false)

/-! ## Concrete states used as test inputs -/

/-- An entity whose hitbox is `[0, 0, 16, 16]` (the default hitbox of an
entity constructed at the origin). -/
def edgeBoxA : Entity := Entity.init (0, 0) "path/to/player/sprite"

/-- An entity whose hitbox is `[16, 0, 16, 16]`: it shares exactly the
right edge of `edgeBoxA`. -/
def edgeBoxB : Entity := Entity.init (16, 0) "path/to/enemy/sprite"

/-- An entity at the origin moving right at 5 px/frame. -/
def c5Entity : Entity := { Entity.init (0, 0) "path/to/player/sprite" with vel := (5, 0) }

/-- An entity at `(10, 20)` with velocity `(3, -2)`. -/
def c10Entity : Entity := { Entity.init (10, 20) "path/to/player/sprite" with vel := (3, -2) }

/-- An enemy standing exactly on the player's start position `(50, 100)`,
so the two default hitboxes coincide and certainly overlap. -/
def collidingEnemy : Entity := Entity.init (50, 100) "path/to/enemy/sprite"

/-- A game one life away from game over, with `collidingEnemy` present. -/
def c3State : GameState :=
  { GameState.init with enemies := [collidingEnemy], playerLives := 1 }

/-- An enemy on which `destroy()` has been called (so `dying = true`). -/
def destroyedEnemy : Entity :=
  ((Entity.init (200, 100) "path/to/enemy/sprite").destroy).1

/-- A game whose only enemy has been destroyed during the frame. -/
def c4State : GameState := { GameState.init with enemies := [destroyedEnemy] }

/-- A power-up entity. -/
def c7PowerUpEnt : Entity := Entity.init (300, 80) "path/to/powerup/sprite"

/-- A game whose only power-up has had `destroy()` called on it. -/
def c7State : GameState :=
  { GameState.init with
      powerUps := [{ ent := (c7PowerUpEnt.destroy).1, type := "speed" }] }

/-- A freshly started game that has been paused. -/
def pausedState : GameState := { GameState.init with isPaused := true }

/-- A store with a single registered type `"grass"` (64 × 32 sheet of
16 × 16 tiles). -/
def demoStore : SpriteStore :=
  addSprite [] "grass" "path/to/grass.png" 16 16 64 32

/-! ## Theorems -/

/-- The collision test holds exactly when the closed boxes intersect on both
axes (non-strict inequalities: touching counts). -/
theorem isCollideWith_iff_closed_overlap (a b : Entity) :
    a.isCollideWith b = true ↔
      (a.hitbox.x ≤ b.hitbox.x + b.hitbox.w ∧ b.hitbox.x ≤ a.hitbox.x + a.hitbox.w ∧
       a.hitbox.y ≤ b.hitbox.y + b.hitbox.h ∧ b.hitbox.y ≤ a.hitbox.y + a.hitbox.h) := by
  simp [Entity.isCollideWith, not_or, not_lt]
  tauto

/-- C2 counterexample: the spec's own example boxes `[0,0,16,16]` and
`[16,0,16,16]`, which share only an edge, are reported as COLLIDING by
`isCollideWith` (the test is non-strict), contradicting the claim. -/
theorem C2_counterexample : edgeBoxA.isCollideWith edgeBoxB = true := by
  norm_num [edgeBoxA, edgeBoxB, Entity.init, Entity.isCollideWith]

/-- C2 (amended): `isCollideWith` returns true iff the two closed hitboxes
intersect on both axes — overlap of zero extent (touching edges) DOES count
as a collision. -/
theorem C2_collision_nonstrict (a b : Entity) :
    a.isCollideWith b = true ↔
      (a.hitbox.x ≤ b.hitbox.x + b.hitbox.w ∧ b.hitbox.x ≤ a.hitbox.x + a.hitbox.w ∧
       a.hitbox.y ≤ b.hitbox.y + b.hitbox.h ∧ b.hitbox.y ≤ a.hitbox.y + a.hitbox.h) :=
  isCollideWith_iff_closed_overlap a b

/-- C9: the collision test is symmetric in its two entities. -/
theorem C9_isCollideWith_comm (a b : Entity) :
    a.isCollideWith b = b.isCollideWith a := by
  have h1 := isCollideWith_iff_closed_overlap a b
  have h2 := isCollideWith_iff_closed_overlap b a
  by_cases hc : (a.hitbox.x ≤ b.hitbox.x + b.hitbox.w ∧
      b.hitbox.x ≤ a.hitbox.x + a.hitbox.w ∧
      a.hitbox.y ≤ b.hitbox.y + b.hitbox.h ∧
      b.hitbox.y ≤ a.hitbox.y + a.hitbox.h)
  · rw [h1.mpr hc, h2.mpr (by tauto)]
  · have n1 : a.isCollideWith b ≠ true := fun h => hc (h1.mp h)
    have n2 : b.isCollideWith a ≠ true := fun h => hc (by have := h2.mp h; tauto)
    simp only [Bool.not_eq_true] at n1 n2
    rw [n1, n2]

/-- C5 counterexample: after one update of an entity moving right, the
hitbox x (still the construction-time 0) differs from the current
position x (5): the hitbox is NOT recomputed from the position. -/
theorem C5_counterexample :
    (c5Entity.update 640).hitbox.x ≠ (c5Entity.update 640).pos.1 := by
  norm_num [c5Entity, Entity.init, Entity.update, checkBoundsX]

/-- C5 (amended): the hitbox is set from the position once, by the
constructor, and `update` never changes it — so at a collision test the
hitbox (x, y) is the construction-time position, which need not equal the
current position. -/
theorem C5_hitbox_never_recomputed :
    (∀ (pos : ℚ × ℚ) (sprite : String),
        (Entity.init pos sprite).hitbox =
          { x := pos.1, y := pos.2, w := 16, h := 16 }) ∧
    (∀ (canvasW : ℚ) (e : Entity), (e.update canvasW).hitbox = e.hitbox) :=
  ⟨fun _ _ => rfl, fun _ _ => rfl⟩

/-- `checkBounds` as clamping: when the hitbox fits on the canvas, the
branchy bound check equals clamping to `[0, canvasW - w]`. -/
theorem checkBoundsX_eq_clamp (canvasW w x : ℚ) (h : w ≤ canvasW) :
    checkBoundsX canvasW w x = max 0 (min (canvasW - w) x) := by
  unfold checkBoundsX
  split_ifs with h1 h2
  · exact (max_eq_left (le_trans (min_le_right _ _) h1.le)).symm
  · rw [min_eq_left h2.le, max_eq_right (by linarith)]
  · rw [min_eq_right (not_lt.mp h2), max_eq_right (not_lt.mp h1)]

/-- C10: base-class `update` changes only the position — adding the
velocity on each axis and clamping x to `[0, canvasW - hitbox.w]` — while
velocity, hitbox, sprite, dying and `isDestroyed` are untouched. -/
theorem C10_update_mutates_only_pos (canvasW : ℚ) (e : Entity)
    (h : e.hitbox.w ≤ canvasW) :
    (e.update canvasW).vel = e.vel ∧
    (e.update canvasW).hitbox = e.hitbox ∧
    (e.update canvasW).sprite = e.sprite ∧
    (e.update canvasW).dying = e.dying ∧
    (e.update canvasW).isDestroyed = e.isDestroyed ∧
    (e.update canvasW).pos.2 = e.pos.2 + e.vel.2 ∧
    (e.update canvasW).pos.1 =
      max 0 (min (canvasW - e.hitbox.w) (e.pos.1 + e.vel.1)) := by
  refine ⟨rfl, rfl, rfl, rfl, rfl, rfl, ?_⟩
  show checkBoundsX canvasW e.hitbox.w (e.pos.1 + e.vel.1) = _
  exact checkBoundsX_eq_clamp _ _ _ h

/-- C10 witness: the update effect at a concrete entity on the 640-wide
canvas. -/
theorem C10_update_mutates_only_pos_witness :
    c10Entity.hitbox.w ≤ (640 : ℚ) ∧
    ((c10Entity.update 640).vel = c10Entity.vel ∧
     (c10Entity.update 640).hitbox = c10Entity.hitbox ∧
     (c10Entity.update 640).sprite = c10Entity.sprite ∧
     (c10Entity.update 640).dying = c10Entity.dying ∧
     (c10Entity.update 640).isDestroyed = c10Entity.isDestroyed ∧
     (c10Entity.update 640).pos.2 = c10Entity.pos.2 + c10Entity.vel.2 ∧
     (c10Entity.update 640).pos.1 =
       max 0 (min (640 - c10Entity.hitbox.w) (c10Entity.pos.1 + c10Entity.vel.1))) :=
  ⟨by norm_num [c10Entity, Entity.init],
   C10_update_mutates_only_pos 640 c10Entity
     (by norm_num [c10Entity, Entity.init])⟩

/-- C8: a request whose type was never registered resolves to `null`
(`none`); no tile is ever returned for it, and the total function never
throws. -/
theorem C8_getSprite_unregistered (store : SpriteStore) (type : String)
    (item : ℕ) (color : Option String) (h : store.lookup type = none) :
    getSprite store type item color = none := by
  simp [getSprite, h]

/-- C8 witness: `"water"` was never registered in `demoStore`, and
`getSprite` returns `none` for it. -/
theorem C8_getSprite_unregistered_witness :
    demoStore.lookup "water" = none ∧
    getSprite demoStore "water" 0 none = none :=
  ⟨by simp [demoStore, addSprite],
   C8_getSprite_unregistered demoStore "water" 0 none
     (by simp [demoStore, addSprite])⟩

/-- C3: at a qualifying player–enemy collision (overlapping boxes, enemy
not dying, player not invincible) the code calls the nonexistent
`Player.takeDamage` and throws a TypeError BEFORE `playerLives -= 1`; the
state (lives included) is returned unchanged and no restart happens. -/
theorem C3_enemy_collision_throws :
    checkPlayerCollisionWithEnemy c3State collidingEnemy =
      (c3State,
       some (JsError.typeError "this.player.takeDamage is not a function")) := by
  norm_num [checkPlayerCollisionWithEnemy, c3State, collidingEnemy,
    GameState.init, PlayerState.init, Entity.init, Entity.isCollideWith]

/-- C4: an enemy on which `destroy()` was called (so its `dying` flag is
set) SURVIVES the cleanup sweep, because the sweep filters on the
`isDestroyed` property, which no code in the source ever assigns. -/
theorem C4_sweep_keeps_destroyed_enemy :
    destroyedEnemy.dying = true ∧ (cleanup c4State).enemies = [destroyedEnemy] :=
  ⟨rfl, rfl⟩

/-- C7: `destroy()` does set `dying` to true, but then throws a TypeError
(`Entity` has no `emit` method), so no "destroyed" notification is ever
delivered; and the next cleanup sweep does NOT remove the entity. -/
theorem C7_destroy_throws_and_entity_not_swept :
    (c7PowerUpEnt.destroy).1.dying = true ∧
    (c7PowerUpEnt.destroy).2 =
      some (JsError.typeError "this.emit is not a function") ∧
    (cleanup c7State).powerUps = c7State.powerUps :=
  ⟨rfl, rfl, rfl⟩

/-- C6 counterexample: pressing the pause-toggle key (`Escape`) in the
paused state leaves the game paused — `handleKeyPress` begins with
`if (this.isPaused) return;`, so the toggle never fires. -/
theorem C6_counterexample :
    (handleKeyPress pausedState "Escape").1.isPaused = true := rfl

/-- C6 (amended): while paused, every key press — the pause toggle
included — is ignored and the state is unchanged, so the controller stays
paused; and a tick of the game loop returns immediately, performing no
work and scheduling no further tick. -/
theorem C6_paused_ignores_all_input (canvasW : ℚ) (s : GameState)
    (code : String) (h : s.isPaused = true) :
    handleKeyPress s code = (s, none) ∧
    gameLoopTick canvasW s = (s, none, false) := by
  constructor
  · simp [handleKeyPress, h]
  · simp [gameLoopTick, h]

/-- C6 witness: the paused start state ignores `Escape` and its tick is a
no-op. -/
theorem C6_paused_ignores_all_input_witness :
    pausedState.isPaused = true ∧
    (handleKeyPress pausedState "Escape" = (pausedState, none) ∧
     gameLoopTick 640 pausedState = (pausedState, none, false)) :=
  ⟨rfl, C6_paused_ignores_all_input 640 pausedState "Escape" rfl⟩

/-- Floor of a cast natural quotient is natural division. -/
theorem qfloor_natCast_div (i a : ℕ) (ha : 0 < a) :
    ⌊(i : ℚ) / (a : ℚ)⌋ = (i / a : ℕ) := by
  have ha' : (0 : ℚ) < a := by exact_mod_cast ha
  rw [Int.floor_eq_iff]
  constructor
  · rw [le_div_iff₀ ha']
    exact_mod_cast Nat.div_mul_le_self i a
  · rw [div_lt_iff₀ ha']
    have h1 : i < a * (i / a + 1) := Nat.lt_mul_div_succ i ha
    rw [Nat.mul_comm] at h1
    exact_mod_cast h1

/-- The JS remainder of cast naturals is the natural remainder. -/
theorem jsMod_natCast (i a : ℕ) (ha : 0 < a) :
    jsMod (i : ℚ) (a : ℚ) = ((i % a : ℕ) : ℚ) := by
  unfold jsMod
  rw [qfloor_natCast_div i a ha, Int.cast_natCast]
  have h : ((a * (i / a) + i % a : ℕ) : ℚ) = (i : ℚ) := by
    exact_mod_cast congrArg (Nat.cast : ℕ → ℚ) (Nat.div_add_mod i a)
  push_cast at h
  linarith

/-- C1 counterexample: for a 65 × 16 image with 16 × 16 tiles, the code
generates 5 tiles (the loop bound `65/16 · 16/16 = 4.0625` is NOT floored,
and `i < 4.0625` admits `i = 4`), whereas the claim demands
`⌊65/16⌋ · ⌊16/16⌋ = 4`. -/
theorem C1_counterexample :
    (createItems 65 16 16 16).length ≠ 65 / 16 * (16 / 16) := by
  have h5 : ⌈totalItemsQ 65 16 16 16⌉₊ = 5 := by
    unfold totalItemsQ
    rw [Nat.ceil_eq_iff (by norm_num)]
    norm_num
  simp [createItems, h5]

/-- C1 (amended): when the tile size divides the image size on both axes
— which also makes `floor(W/tw) = W/tw` and `floor(H/th) = H/th` — the
generated tile count is `(W/tw) · (H/th)` and tile `i` sits at the
row-major position `x = (i mod W/tw) · tw`, `y = (i div W/tw) · th`. -/
theorem C1_createItems_divisible (W H tw th : ℕ) (htw : 0 < tw) (hth : 0 < th)
    (hW : tw ∣ W) (hH : th ∣ H) :
    (createItems W H tw th).length = (W / tw) * (H / th) ∧
    ∀ i : ℕ, i < (W / tw) * (H / th) →
      (createItems W H tw th)[i]? =
        some { index := i
               x := ((i % (W / tw) * tw : ℕ) : ℚ)
               y := ((i / (W / tw) * th : ℕ) : ℚ) } := by
  obtain ⟨a, rfl⟩ := hW
  obtain ⟨b, rfl⟩ := hH
  have htw' : (tw : ℚ) ≠ 0 := by exact_mod_cast htw.ne'
  have hth' : (th : ℚ) ≠ 0 := by exact_mod_cast hth.ne'
  have hda : tw * a / tw = a := Nat.mul_div_cancel_left a htw
  have hdb : th * b / th = b := Nat.mul_div_cancel_left b hth
  have hcols : ((tw * a : ℕ) : ℚ) / (tw : ℚ) = (a : ℚ) := by
    push_cast
    exact mul_div_cancel_left₀ _ htw'
  have hT : totalItemsQ (tw * a) (th * b) tw th = ((a * b : ℕ) : ℚ) := by
    unfold totalItemsQ
    push_cast
    rw [mul_div_cancel_left₀ _ htw', mul_div_cancel_left₀ _ hth']
  have hceil : ⌈totalItemsQ (tw * a) (th * b) tw th⌉₊ = a * b := by
    rw [hT, Nat.ceil_natCast]
  constructor
  · simp [createItems, hceil, hda, hdb]
  · intro i hi
    rw [hda, hdb] at hi
    have ha : 0 < a := by
      rcases Nat.eq_zero_or_pos a with h0 | h0
      · subst h0; simp at hi
      · exact h0
    rw [hda]
    unfold createItems
    rw [List.getElem?_map, hceil, List.getElem?_range hi, Option.map_some']
    have hx : jsMod (i : ℚ) (((tw * a : ℕ) : ℚ) / (tw : ℚ)) * (tw : ℚ) =
        ((i % a * tw : ℕ) : ℚ) := by
      rw [hcols, jsMod_natCast i a ha]
      push_cast
      ring
    have hy : ((⌊(i : ℚ) / (((tw * a : ℕ) : ℚ) / (tw : ℚ))⌋ : ℤ) : ℚ) * (th : ℚ) =
        ((i / a * th : ℕ) : ℚ) := by
      rw [hcols, qfloor_natCast_div i a ha, Int.cast_natCast]
      push_cast
      ring
    rw [hx, hy]

/-- C1 witness: a 64 × 32 sheet of 16 × 16 tiles yields 8 tiles in
row-major order (the spec's own worked example). -/
theorem C1_createItems_divisible_witness :
    (0 < 16 ∧ 0 < 16 ∧ 16 ∣ 64 ∧ 16 ∣ 32) ∧
    ((createItems 64 32 16 16).length = 64 / 16 * (32 / 16) ∧
     ∀ i : ℕ, i < 64 / 16 * (32 / 16) →
       (createItems 64 32 16 16)[i]? =
         some { index := i
                x := ((i % (64 / 16) * 16 : ℕ) : ℚ)
                y := ((i / (64 / 16) * 16 : ℕ) : ℚ) }) :=
  ⟨⟨by decide, by decide, by decide, by decide⟩,
   C1_createItems_divisible 64 32 16 16 (by decide) (by decide) (by decide)
     (by decide)⟩

end PixelGameDev
